import Mathlib

/-
Verification of the item model of BeeRef (beeref/items.py): item types,
selection queries, persistence round-trips and the text edit-mode state
machine, shallowly embedded in Lean 4.

Conventions of the embedding:
* Python `None` becomes `Option.none`; a Python `dict` payload with
  possibly-missing keys becomes a structure of `Option` fields.
* Python truthiness of strings (`s or t` treats both `None` and the empty
  string as falsy) is made explicit in `pythonStrOr` / `pythonOptStrOr`.
* Qt floats (positions, scale, rotation, z) are embedded as `Rat`; the
  claims under study only copy and compare them, never do float rounding.
* Methods become pure functions from the item (and arguments) to the
  updated item; the callers see every effect in the returned value.
-/

namespace BeeRef

/-- Modelled from the spec: the scene/canvas controller (BeeGraphicsScene
lives outside `items.py`, which is the only core source file present).
The spec says the scene owns the selection set, supplies a
"single selection" query and a rubber-band-active flag, and tracks the
item currently in text-edit mode. `selected_count` is the size of the
current selection set, `max_z` the maximum existing z-order. -/
structure BeeScene where
  selected_count : Nat := 0
  rubberband_active : Bool := false
  max_z : Rat := 0
  edit_item : Option Nat := none
deriving DecidableEq

/-- Modelled from the spec: the scene query "exactly one item is
selected" used by `has_selection_handles`. -/
def BeeScene.has_single_selection (self : BeeScene) : Bool :=
  self.selected_count == 1

/-- Modelled from the spec: the scene query "anything is currently
selected" used by `on_selected_change` ("nothing else is currently
selected": during the selected-change callback the item itself is not
yet counted in the selection set). -/
def BeeScene.has_selection (self : BeeScene) : Bool :=
  self.selected_count != 0

/-- Python `a or b` for a string `a` and default string `b`: `None` and
the empty string are falsy, so both yield `b`. -/
def pythonStrOr : Option String → String → String
  | none, b => b
  | some a, b => if a = "" then b else a

/-- Python `a or b` where both operands are an optional string (`None` or
a `str`): `None` and the empty string are falsy. -/
def pythonOptStrOr : Option String → Option String → Option String
  | none, b => b
  | some a, b => if a = "" then b else some a

/-- Common state of every user item (`BeeItemMixin` plus the inherited
QGraphicsItem state that `items.py` reads or writes: position, z-value,
scale, rotation, selection flag, owning scene, and the flip state kept
by the selectable mixin). `flip` is `1` for unflipped and `-1` for
horizontally flipped, as returned by `flip()` in the source. -/
structure BeeItemMixin where
  save_id : Option Nat := none
  x : Rat := 0
  y : Rat := 0
  z : Rat := 0
  scale : Rat := 1
  rotation : Rat := 0
  flip : Int := 1
  selected : Bool := false
  scene : Option BeeScene := none
deriving DecidableEq

/-- Modelled from the spec: the z-order increment of `bring_to_front`
("max existing z plus an increment"); the selectable mixin that defines
it (`selection.py`) is not among the source files. -/
def Z_INCREMENT : Rat := 1

/-- Modelled from the spec: `bring_to_front` sets the item's z-order to
the maximum existing z in the scene plus an increment. -/
def BeeItemMixin.bring_to_front (self : BeeItemMixin) : BeeItemMixin :=
  match self.scene with
  | some s => { self with z := s.max_z + Z_INCREMENT }
  | none => self

/-- Modelled from the spec: `do_flip` toggles the flip enum (mirror about
the local vertical axis); defined in the selectable mixin outside
`items.py`. -/
def BeeItemMixin.do_flip (self : BeeItemMixin) : BeeItemMixin :=
  { self with flip := -self.flip }

/-- `BeeItemMixin.has_selection_outline`: true iff the item is selected. -/
def BeeItemMixin.has_selection_outline (self : BeeItemMixin) : Bool :=
  self.selected

/-- `BeeItemMixin.has_selection_handles`: the Python chain
`self.isSelected() and self.scene() and self.scene().has_single_selection()`
(a missing scene short-circuits to a falsy result). -/
def BeeItemMixin.has_selection_handles (self : BeeItemMixin) : Bool :=
  self.selected &&
    (match self.scene with
     | none => false
     | some s => s.has_single_selection)

/-- `selection_action_items` of the mixin: `return [self]`, where `self`
is the concrete item (groups, not present in `items.py`, override it). -/
def selection_action_items {α : Type} (self : α) : List α := [self]

/-- `BeeItemMixin.on_selected_change(value)`: bring the item to the front
iff it is becoming selected, belongs to a scene, the scene has no
current selection, and no rubber-band drag is active. -/
def BeeItemMixin.on_selected_change (self : BeeItemMixin) (value : Bool) :
    BeeItemMixin :=
  match self.scene with
  | none => self
  | some s =>
      if value && !s.has_selection && !s.rubberband_active then
        self.bring_to_front
      else
        self

/-- The keyword dictionary accepted by `update_from_data`; a `none` field
models an absent key, for which `kwargs.get` falls back to the item's
current value (or to `1` for `flip`). -/
structure ItemKwargs where
  save_id : Option (Option Nat) := none
  x : Option Rat := none
  y : Option Rat := none
  z : Option Rat := none
  scale : Option Rat := none
  rotation : Option Rat := none
  flip : Option Int := none
deriving DecidableEq

/-- `BeeItemMixin.update_from_data(**kwargs)`: each common field falls
back to its current value when absent, except `flip`, whose fallback is
the constant `1`; `do_flip` runs when the (defaulted) `flip` value
differs from the item's current flip state. -/
def BeeItemMixin.update_from_data (self : BeeItemMixin) (kw : ItemKwargs) :
    BeeItemMixin :=
  let it : BeeItemMixin :=
    { self with
      save_id := kw.save_id.getD self.save_id,
      x := kw.x.getD self.x,
      y := kw.y.getD self.y,
      z := kw.z.getD self.z,
      scale := kw.scale.getD self.scale,
      rotation := kw.rotation.getD self.rotation }
  if kw.flip.getD 1 ≠ it.flip then it.do_flip else it

/-- An image item: the mixin state plus the pixmap (embedded as its byte
content) and the optional source filename. -/
structure BeePixmapItem where
  base : BeeItemMixin := {}
  pixmap : List Nat := []
  filename : Option String := none
deriving DecidableEq

/-- `BeePixmapItem.TYPE`. -/
def BeePixmapItem.TYPE : String := "pixmap"

/-- `BeePixmapItem.__init__(image, filename=None)`: fresh mixin state
(`save_id = None`, default transform, not selected, no scene), the
pixmap built from the image, and the given filename. -/
def BeePixmapItem.mkItem (image : List Nat) (filename : Option String) :
    BeePixmapItem :=
  { base := {}, pixmap := image, filename := filename }

/-- The `data` payload of `BeePixmapItem.create_from_data`; a missing
`filename` key (`data.get('filename')`) reads as `none`. -/
structure PixmapData where
  filename : Option String := none
deriving DecidableEq

/-- `BeePixmapItem.create_from_data(item=..., data=...)`:
`item.filename = item.filename or data.get('filename')`, everything else
of the passed-in item is returned unchanged. -/
def BeePixmapItem.create_from_data (item : BeePixmapItem)
    (data : PixmapData) : BeePixmapItem :=
  { item with filename := pythonOptStrOr item.filename data.filename }

/-- `BeePixmapItem.get_extra_save_data()`: the dict with the single key
`filename`. -/
def BeePixmapItem.get_extra_save_data (self : BeePixmapItem) : PixmapData :=
  { filename := self.filename }

/-- `BeePixmapItem.has_selection_handles` is inherited from the mixin. -/
def BeePixmapItem.has_selection_handles (self : BeePixmapItem) : Bool :=
  self.base.has_selection_handles

/-- `BeePixmapItem.create_copy()`: the constructor applied to a blank
image and the original's filename, followed by `setPixmap`, `setPos`,
`setZValue`, `setScale` and `setRotation` copying the original's values
(the setters write disjoint fields, so the sequence is one record), and
a final `do_flip` iff the original is flipped. -/
def BeePixmapItem.create_copy (self : BeePixmapItem) : BeePixmapItem :=
  let item : BeePixmapItem :=
    { base := { save_id := none, x := self.base.x, y := self.base.y,
                z := self.base.z, scale := self.base.scale,
                rotation := self.base.rotation, flip := 1,
                selected := false, scene := none },
      pixmap := self.pixmap,
      filename := self.filename }
  if self.base.flip = -1 then
    { item with base := item.base.do_flip }
  else
    item

/-- Qt text-interaction flags used by the text item. -/
inductive TextInteraction where
  | noTextInteraction
  | textEditorInteraction
deriving DecidableEq

/-- A text cursor: caret position and selection anchor. A fresh
`QTextCursor(document())` has both at the document start. -/
structure TextCursor where
  position : Nat := 0
  anchor : Nat := 0
deriving DecidableEq

/-- A text item: the mixin state plus the plain-text content, the
editable/edit-mode flags, the text-interaction flags and the text
cursor. -/
structure BeeTextItem where
  base : BeeItemMixin := {}
  text : String := "Text"
  is_editable : Bool := true
  edit_mode : Bool := false
  interaction : TextInteraction := TextInteraction.noTextInteraction
  cursor : TextCursor := {}
deriving DecidableEq

/-- `BeeTextItem.TYPE`. -/
def BeeTextItem.TYPE : String := "text"

/-- `BeeTextItem.__init__(text=None)`: the content is
`text or "Text"` (so a `None` or empty argument stores the literal
`"Text"`), `save_id = None`, editable, not in edit mode, fresh mixin
state; a new QGraphicsTextItem starts with interaction disabled and the
cursor at the document start. -/
def BeeTextItem.mkItem (text : Option String) : BeeTextItem :=
  { base := {},
    text := pythonStrOr text "Text",
    is_editable := true,
    edit_mode := false,
    interaction := TextInteraction.noTextInteraction,
    cursor := {} }

/-- The `data` payload of `BeeTextItem.create_from_data`; a `none` field
models an absent `text` key, for which `cls(**data)` falls back to the
constructor default `text=None`. -/
structure TextData where
  text : Option String := none
deriving DecidableEq

/-- `BeeTextItem.create_from_data(data=...)`: `cls(**data)`, i.e. the
constructor applied to the payload's `text` (absent means `None`). -/
def BeeTextItem.create_from_data (data : TextData) : BeeTextItem :=
  BeeTextItem.mkItem data.text

/-- `BeeTextItem.get_extra_save_data()`: the dict with the single key
`text` holding `toPlainText()`. -/
def BeeTextItem.get_extra_save_data (self : BeeTextItem) : TextData :=
  { text := some self.text }

/-- `BeeTextItem.create_copy()`: the constructor applied to
`toPlainText()` (so its `text or "Text"` default applies), followed by
`setPos`, `setZValue`, `setScale` and `setRotation` copying the
original's values (the setters write disjoint fields, so the sequence
is one record), and a final `do_flip` iff the original is flipped. -/
def BeeTextItem.create_copy (self : BeeTextItem) : BeeTextItem :=
  let item : BeeTextItem :=
    { base := { save_id := none, x := self.base.x, y := self.base.y,
                z := self.base.z, scale := self.base.scale,
                rotation := self.base.rotation, flip := 1,
                selected := false, scene := none },
      text := pythonStrOr (some self.text) "Text",
      is_editable := true,
      edit_mode := false,
      interaction := TextInteraction.noTextInteraction,
      cursor := {} }
  if self.base.flip = -1 then
    { item with base := item.base.do_flip }
  else
    item

/-- `BeeTextItem.enter_edit_mode()`: set the edit-mode flag and enable
text-editor interaction. -/
def BeeTextItem.enter_edit_mode (self : BeeTextItem) : BeeTextItem :=
  { self with
    edit_mode := true,
    interaction := TextInteraction.textEditorInteraction }

/-- `BeeTextItem.exit_edit_mode()`: clear the edit-mode flag, reset the
cursor to a fresh `QTextCursor(document())` (document start, no
selection) and disable text interaction. -/
def BeeTextItem.exit_edit_mode (self : BeeTextItem) : BeeTextItem :=
  { self with
    edit_mode := false,
    cursor := {},
    interaction := TextInteraction.noTextInteraction }

/-- `BeeTextItem.has_selection_handles`: the mixin query and additionally
not in edit mode. -/
def BeeTextItem.has_selection_handles (self : BeeTextItem) : Bool :=
  self.base.has_selection_handles && !self.edit_mode

/-- Qt key code of `Key_Return`. -/
def key_Return : Nat := 16777220

/-- Qt key code of `Key_Enter`. -/
def key_Enter : Nat := 16777221

/-- Qt modifier mask of `NoModifier`. -/
def noModifier : Nat := 0

/-- A key press event: key code and modifier mask. -/
structure KeyEvent where
  key : Nat
  modifiers : Nat
deriving DecidableEq

/-- `BeeTextItem.keyPressEvent(event)`: on Enter or Return with no
modifier, exit edit mode, then run the unguarded
`self.scene().edit_item = None` — when the item has no scene this
attribute access raises (`None` has no `edit_item`) before
`event.accept()` runs, embedded as `none`; with a scene it clears the
scene's `edit_item` and accepts the event. On any other key the event
is handed to the toolkit base class (text editing outside this
repository), left here as the unchanged item with the event not
accepted. Returns `some` of the updated item and the accepted flag, or
`none` for the raised error. -/
def BeeTextItem.keyPressEvent (self : BeeTextItem) (event : KeyEvent) :
    Option (BeeTextItem × Bool) :=
  if (event.key = key_Enter ∨ event.key = key_Return)
      ∧ event.modifiers = noModifier then
    let it := self.exit_edit_mode
    match it.base.scene with
    | none => none
    | some s =>
        some ({ it with base := { it.base with
          scene := some { s with edit_item := none } } }, true)
  else
    some (self, false)

/-- The registered item classes. -/
inductive ItemClass where
  | pixmap
  | text
deriving DecidableEq

/-- `item_registry`: the mapping from type tag to item class built by the
two `@register_item` decorations in `items.py`. -/
def item_registry : List (String × ItemClass) :=
  [(BeePixmapItem.TYPE, ItemClass.pixmap),
   (BeeTextItem.TYPE, ItemClass.text)]

/-- Modelled from the spec: the error taxonomy of the persistence
layer's reconstruction (the persistence layer is outside `items.py`):
a `DataError` identifying the item and its missing field, and an
`UnknownTypeError` for an unsupported type tag. -/
inductive ReconstructionError where
  | dataError (item : String) (field : String)
  | unknownTypeError (tag : String)
deriving DecidableEq

/-- Modelled from the spec: the reconstruction dispatch of the
persistence layer (not under src/) looks the persisted type tag up in
`item_registry` and fails with an `UnknownTypeError` naming the tag
when no class is registered for it; a registered tag dispatches to that
class. -/
def reconstruct_item_class (tag : String) :
    Except ReconstructionError ItemClass :=
  match List.lookup tag item_registry with
  | some cls => Except.ok cls
  | none => Except.error (ReconstructionError.unknownTypeError tag)

/-- Modelled from the spec: loading a document reconstructs each
persisted item's class independently, so a failed dispatch is fatal
only to that single item's load and the rest of the document still
loads. -/
def load_items (tags : List String) :
    List (Except ReconstructionError ItemClass) :=
  tags.map reconstruct_item_class

end BeeRef

namespace BeeRef

/-- Helper: the mixin selection-handles query as a proposition. -/
theorem BeeItemMixin.has_selection_handles_iff (m : BeeItemMixin) :
    m.has_selection_handles = true ↔
      m.selected = true ∧ ∃ s, m.scene = some s ∧ s.selected_count = 1 := by
  unfold BeeItemMixin.has_selection_handles BeeScene.has_single_selection
  cases h : m.scene <;> simp [h]

/-- Claim C1: an item has selection handles iff it is selected, belongs
to a scene whose selection has exactly one item, and (for text items) is
not in edit mode; the query is false whenever the scene's selection
count is not one, and entering edit mode forces it false for text
items. -/
theorem has_selection_handles_spec (p : BeePixmapItem) (t : BeeTextItem) :
    (p.has_selection_handles = true ↔
      p.base.selected = true ∧
        ∃ s, p.base.scene = some s ∧ s.selected_count = 1)
    ∧ (t.has_selection_handles = true ↔
      t.base.selected = true ∧
        (∃ s, t.base.scene = some s ∧ s.selected_count = 1) ∧
        t.edit_mode = false)
    ∧ (∀ s, p.base.scene = some s → s.selected_count ≠ 1 →
        p.has_selection_handles = false)
    ∧ (∀ s, t.base.scene = some s → s.selected_count ≠ 1 →
        t.has_selection_handles = false)
    ∧ (t.enter_edit_mode).has_selection_handles = false := by
  refine ⟨?_, ?_, ?_, ?_, ?_⟩
  · exact p.base.has_selection_handles_iff
  · unfold BeeTextItem.has_selection_handles
    rw [Bool.and_eq_true, Bool.not_eq_true']
    rw [t.base.has_selection_handles_iff]
    tauto
  · intro s hs hc
    unfold BeePixmapItem.has_selection_handles
      BeeItemMixin.has_selection_handles BeeScene.has_single_selection
    simp [hs, hc]
  · intro s hs hc
    unfold BeeTextItem.has_selection_handles
      BeeItemMixin.has_selection_handles BeeScene.has_single_selection
    simp [hs, hc]
  · unfold BeeTextItem.has_selection_handles BeeTextItem.enter_edit_mode
    simp

/-- Claim C1 witness: a selected pixmap item in a single-selection scene
has handles; a selected text item in a two-selection scene has none. -/
theorem has_selection_handles_spec_witness :
    ({ base := { selected := true, scene := some { selected_count := 1 } } }
        : BeePixmapItem).has_selection_handles = true
    ∧ ({ base := { selected := true, scene := some { selected_count := 2 } } }
        : BeeTextItem).has_selection_handles = false := by
  constructor
  · exact (has_selection_handles_spec _ {}).1.mpr ⟨rfl, _, rfl, rfl⟩
  · exact (has_selection_handles_spec {} _).2.2.2.1 _ rfl (by decide)

/-- Claim C7: `selection_action_items` of a plain (non-group) item is the
one-element list holding the item itself; as a pure function of the item
it touches no other state. -/
theorem selection_action_items_spec (p : BeePixmapItem) (t : BeeTextItem) :
    selection_action_items p = [p] ∧ selection_action_items t = [t] :=
  ⟨rfl, rfl⟩

/-- Claim C9: constructing a text item from `None` or the empty string
stores the literal `"Text"`; a non-empty argument is stored verbatim. -/
theorem BeeTextItem_mkItem_text_spec :
    (BeeTextItem.mkItem none).text = "Text"
    ∧ (BeeTextItem.mkItem (some "")).text = "Text"
    ∧ ∀ s : String, s ≠ "" → (BeeTextItem.mkItem (some s)).text = s := by
  refine ⟨rfl, by decide, ?_⟩
  intro s hs
  simp [BeeTextItem.mkItem, pythonStrOr, hs]

/-- Claim C9 witness: a concrete non-empty string is stored verbatim. -/
theorem BeeTextItem_mkItem_text_spec_witness :
    (BeeTextItem.mkItem (some "hello")).text = "hello" :=
  BeeTextItem_mkItem_text_spec.2.2 "hello" (by decide)

end BeeRef

namespace BeeRef

/-- Claim C4: `on_selected_change(value)` brings the item to the front
exactly when `value` is true, the item is in a scene, the scene has no
current selection and no rubber-band drag is active; in every other
case the item is returned unchanged. -/
theorem on_selected_change_spec (self : BeeItemMixin) (value : Bool) :
    (∀ s, self.scene = some s → value = true → s.has_selection = false →
        s.rubberband_active = false →
        self.on_selected_change value = self.bring_to_front)
    ∧ (value = false → self.on_selected_change value = self)
    ∧ (self.scene = none → self.on_selected_change value = self)
    ∧ (∀ s, self.scene = some s →
        (s.has_selection = true ∨ s.rubberband_active = true) →
        self.on_selected_change value = self) := by
  refine ⟨?_, ?_, ?_, ?_⟩
  · intro s hs hv hsel hrb
    simp only [BeeItemMixin.on_selected_change, hs, hv, hsel, hrb]
    simp
  · intro hv
    cases hs : self.scene <;>
      simp [BeeItemMixin.on_selected_change, hs, hv]
  · intro hs
    simp [BeeItemMixin.on_selected_change, hs]
  · intro s hs hor
    rcases hor with h | h <;>
      simp [BeeItemMixin.on_selected_change, hs, h]

/-- Claim C4 witness: an item becoming selected in a quiet scene is
brought to the front. -/
theorem on_selected_change_spec_witness :
    ({ scene := some { max_z := 5 } } : BeeItemMixin).on_selected_change true
      = ({ scene := some { max_z := 5 } } : BeeItemMixin).bring_to_front :=
  (on_selected_change_spec _ true).1 _ rfl rfl (by decide) rfl

/-- Claim C5: `enter_edit_mode` sets the editing state (and enables
text-editor interaction); `exit_edit_mode`, and a key press of Enter or
Return with no modifier while editing an item that belongs to a scene
(key events reach the item through its scene; a scene-less item instead
hits the unguarded `self.scene().edit_item` access and the handler
raises rather than accepting), clears the editing state, resets the
cursor to a fresh cursor at the document start and disables text
interaction, with the key press accepted. -/
theorem edit_mode_state_machine (t : BeeTextItem) (ev : KeyEvent) :
    (t.enter_edit_mode).edit_mode = true
    ∧ (t.enter_edit_mode).interaction = TextInteraction.textEditorInteraction
    ∧ (t.exit_edit_mode).edit_mode = false
    ∧ (t.exit_edit_mode).cursor = { position := 0, anchor := 0 }
    ∧ (t.exit_edit_mode).interaction = TextInteraction.noTextInteraction
    ∧ (∀ s, t.base.scene = some s → t.edit_mode = true →
        (ev.key = key_Enter ∨ ev.key = key_Return) →
        ev.modifiers = noModifier →
        (t.keyPressEvent ev).map
            (fun r => (r.1.edit_mode, r.1.cursor, r.1.interaction, r.2))
          = some (false, { position := 0, anchor := 0 },
              TextInteraction.noTextInteraction, true))
    ∧ (t.base.scene = none →
        (ev.key = key_Enter ∨ ev.key = key_Return) →
        ev.modifiers = noModifier →
        t.keyPressEvent ev = none) := by
  refine ⟨rfl, rfl, rfl, rfl, rfl, ?_, ?_⟩
  · intro s hs _ hk hm
    unfold BeeTextItem.keyPressEvent
    rw [if_pos ⟨hk, hm⟩]
    simp [BeeTextItem.exit_edit_mode, hs]
  · intro hs hk hm
    unfold BeeTextItem.keyPressEvent
    rw [if_pos ⟨hk, hm⟩]
    simp [BeeTextItem.exit_edit_mode, hs]

/-- Claim C5 witness: a text item in a scene, put into edit mode, leaves
it on a plain Return key press, with the cursor reset, interaction
disabled and the event accepted. -/
theorem edit_mode_state_machine_witness :
    ((({ base := { scene := some {} } } : BeeTextItem).enter_edit_mode
        ).keyPressEvent { key := 16777220, modifiers := 0 }).map
        (fun r => (r.1.edit_mode, r.1.cursor, r.1.interaction, r.2))
      = some (false, { position := 0, anchor := 0 },
          TextInteraction.noTextInteraction, true) :=
  (edit_mode_state_machine
      (({ base := { scene := some {} } } : BeeTextItem).enter_edit_mode)
      { key := 16777220, modifiers := 0 }).2.2.2.2.2.1 {} rfl rfl
    (Or.inr (by decide)) (by decide)

/-- Claim C8: `update_from_data` leaves each of `save_id`, `x`, `y`, `z`,
`scale` and `rotation` unchanged when its key is absent, but an absent
`flip` key defaults to `1`: on an item whose flip state is `-1` it
triggers `do_flip` back to `1`, while an unflipped item stays at `1`. -/
theorem update_from_data_frame (self : BeeItemMixin) (kw : ItemKwargs) :
    (kw.save_id = none → (self.update_from_data kw).save_id = self.save_id)
    ∧ (kw.x = none → (self.update_from_data kw).x = self.x)
    ∧ (kw.y = none → (self.update_from_data kw).y = self.y)
    ∧ (kw.z = none → (self.update_from_data kw).z = self.z)
    ∧ (kw.scale = none → (self.update_from_data kw).scale = self.scale)
    ∧ (kw.rotation = none →
        (self.update_from_data kw).rotation = self.rotation)
    ∧ (kw.flip = none → self.flip = -1 →
        (self.update_from_data kw).flip = 1)
    ∧ (kw.flip = none → self.flip = 1 →
        (self.update_from_data kw).flip = 1) := by
  refine ⟨?_, ?_, ?_, ?_, ?_, ?_, ?_, ?_⟩
  · intro h
    simp only [BeeItemMixin.update_from_data]
    split <;> simp [BeeItemMixin.do_flip, h]
  · intro h
    simp only [BeeItemMixin.update_from_data]
    split <;> simp [BeeItemMixin.do_flip, h]
  · intro h
    simp only [BeeItemMixin.update_from_data]
    split <;> simp [BeeItemMixin.do_flip, h]
  · intro h
    simp only [BeeItemMixin.update_from_data]
    split <;> simp [BeeItemMixin.do_flip, h]
  · intro h
    simp only [BeeItemMixin.update_from_data]
    split <;> simp [BeeItemMixin.do_flip, h]
  · intro h
    simp only [BeeItemMixin.update_from_data]
    split <;> simp [BeeItemMixin.do_flip, h]
  · intro h hf
    simp [BeeItemMixin.update_from_data, BeeItemMixin.do_flip, h, hf]
  · intro h hf
    simp [BeeItemMixin.update_from_data, BeeItemMixin.do_flip, h, hf]

/-- Claim C8 witness: updating a flipped item with an empty keyword set
resets its flip state to unflipped. -/
theorem update_from_data_frame_witness :
    (({ flip := -1 } : BeeItemMixin).update_from_data {}).flip = 1 :=
  (update_from_data_frame { flip := -1 } {}).2.2.2.2.2.2.1 rfl rfl

end BeeRef

namespace BeeRef

/-- Claim C2 counterexample: the round-trip fails at two concrete
inputs. A text item whose content is the empty string comes back as the
literal `"Text"`, not the empty string; and an image item's pixmap
bytes are not reproduced on a fresh blank item, because the
`get_extra_save_data` payload holds only the filename and
`create_from_data` applies nothing else, so the result keeps the fresh
item's blank pixmap. -/
theorem save_data_roundtrip_cex :
    (BeeTextItem.create_from_data
        (({ text := "" } : BeeTextItem).get_extra_save_data)).text
      ≠ ({ text := "" } : BeeTextItem).text
    ∧ (BeePixmapItem.create_from_data (BeePixmapItem.mkItem [] none)
        (({ pixmap := [1] } : BeePixmapItem).get_extra_save_data)).pixmap
      ≠ ({ pixmap := [1] } : BeePixmapItem).pixmap := by
  constructor <;> decide

/-- Claim C2 (amended): the save-data round-trip reproduces the plain
text verbatim for every text item with non-empty content (an empty
original becomes `"Text"`), and for image items the filename
round-trips onto a fresh item with a null filename while the pixmap of
the result is the fresh item's own, unchanged, since the payload
carries no pixmap data. -/
theorem save_data_roundtrip_amended :
    (∀ t : BeeTextItem, t.text ≠ "" →
      (BeeTextItem.create_from_data t.get_extra_save_data).text = t.text)
    ∧ ∀ (p fresh : BeePixmapItem), fresh.filename = none →
      (BeePixmapItem.create_from_data fresh p.get_extra_save_data).filename
          = p.filename
      ∧ (BeePixmapItem.create_from_data fresh p.get_extra_save_data).pixmap
          = fresh.pixmap := by
  constructor
  · intro t ht
    simp [BeeTextItem.create_from_data, BeeTextItem.get_extra_save_data,
      BeeTextItem.mkItem, pythonStrOr, ht]
  · intro p fresh hf
    constructor <;>
      simp [BeePixmapItem.create_from_data,
        BeePixmapItem.get_extra_save_data, pythonOptStrOr, hf]

/-- Claim C2 witness: a concrete text note and a concrete image filename
round-trip through the save data. -/
theorem save_data_roundtrip_amended_witness :
    (BeeTextItem.create_from_data
        (({ text := "note" } : BeeTextItem).get_extra_save_data)).text
      = "note"
    ∧ (BeePixmapItem.create_from_data ({} : BeePixmapItem)
        (({ pixmap := [7], filename := some "bee.png" } : BeePixmapItem
            ).get_extra_save_data)).filename = some "bee.png" := by
  constructor
  · exact save_data_roundtrip_amended.1 { text := "note" } (by decide)
  · exact (save_data_roundtrip_amended.2
      { pixmap := [7], filename := some "bee.png" } {} rfl).1

/-- Claim C3 counterexample: a payload missing the expected field does
not make `create_from_data` fail with a `DataError`:
`BeePixmapItem.create_from_data` with an empty payload returns the
passed-in item unchanged (filename defaulted to `None`), and
`BeeTextItem.create_from_data` with an empty payload succeeds with the
constructor default `"Text"`; no `DataError` is raised in `items.py`. -/
theorem reconstruction_no_error_cex :
    BeePixmapItem.create_from_data (BeePixmapItem.mkItem [] none) {}
        = BeePixmapItem.mkItem [] none
    ∧ (BeeTextItem.create_from_data {}).text = "Text" := by
  constructor
  · decide
  · rfl

/-- Claim C3 (amended): a persisted payload missing an expected field
does not raise — `create_from_data` defaults it (a pixmap payload
without `filename` leaves a null-filename item's filename null, a text
payload without `text` yields the constructor default `"Text"`); an
unsupported type tag fails with an `UnknownTypeError` identifying the
tag, while the registered tags `"pixmap"` and `"text"` dispatch to
their classes, and the failure is fatal only to that single item's
load: in a document, every other entry reconstructs exactly as it would
alone. -/
theorem reconstruction_amended (item : BeePixmapItem) (tag : String)
    (pre post : List String) :
    (item.filename = none →
      (BeePixmapItem.create_from_data item {}).filename = none)
    ∧ (BeeTextItem.create_from_data {}).text = "Text"
    ∧ reconstruct_item_class BeePixmapItem.TYPE = Except.ok ItemClass.pixmap
    ∧ reconstruct_item_class BeeTextItem.TYPE = Except.ok ItemClass.text
    ∧ (tag ≠ BeePixmapItem.TYPE → tag ≠ BeeTextItem.TYPE →
        reconstruct_item_class tag
          = Except.error (ReconstructionError.unknownTypeError tag))
    ∧ load_items (pre ++ tag :: post)
        = load_items pre ++ reconstruct_item_class tag :: load_items post := by
  refine ⟨?_, rfl, rfl, rfl, ?_, ?_⟩
  · intro h
    simp [BeePixmapItem.create_from_data, pythonOptStrOr, h]
  · intro h1 h2
    have e1 : (tag == BeePixmapItem.TYPE) = false := beq_eq_false_iff_ne.mpr h1
    have e2 : (tag == BeeTextItem.TYPE) = false := beq_eq_false_iff_ne.mpr h2
    simp [reconstruct_item_class, item_registry, List.lookup, e1, e2]
  · simp [load_items]

/-- Claim C3 witness: a blank item reconstructed from an empty payload
keeps a null filename; an unknown type tag fails with the
`UnknownTypeError` naming it, and a document holding it still
reconstructs its other items. -/
theorem reconstruction_amended_witness :
    (BeePixmapItem.create_from_data (BeePixmapItem.mkItem [] none) {}
        ).filename = none
    ∧ reconstruct_item_class "bogus"
        = Except.error (ReconstructionError.unknownTypeError "bogus")
    ∧ load_items ["pixmap", "bogus", "text"]
        = [Except.ok ItemClass.pixmap,
           Except.error (ReconstructionError.unknownTypeError "bogus"),
           Except.ok ItemClass.text] := by
  refine ⟨?_, ?_, ?_⟩
  · exact (reconstruction_amended (BeePixmapItem.mkItem [] none) "" [] []).1
      rfl
  · exact (reconstruction_amended {} "bogus" [] []).2.2.2.2.1
      (by decide) (by decide)
  · exact ((reconstruction_amended {} "bogus" ["pixmap"] ["text"]
        ).2.2.2.2.2).trans rfl

/-- Claim C6 counterexample: an item whose filename is the (non-null)
empty string does not keep it — Python truthiness makes
`create_from_data` replace it with the payload's filename. -/
theorem filename_fallback_cex :
    (BeePixmapItem.mkItem [] (some "")).filename ≠ none
    ∧ (BeePixmapItem.create_from_data (BeePixmapItem.mkItem [] (some ""))
        { filename := some "a.png" }).filename
      ≠ (BeePixmapItem.mkItem [] (some "")).filename := by
  constructor <;> decide

/-- Claim C6 (amended): `create_from_data` keeps the passed-in item's
filename when it is a non-empty string and ignores the payload's; when
the item's filename is null or the empty string, the payload's filename
(absent meaning null) is used instead. -/
theorem create_from_data_filename_amended (item : BeePixmapItem)
    (data : PixmapData) :
    (∀ s, item.filename = some s → s ≠ "" →
      (BeePixmapItem.create_from_data item data).filename = some s)
    ∧ ((item.filename = none ∨ item.filename = some "") →
      (BeePixmapItem.create_from_data item data).filename
        = data.filename) := by
  constructor
  · intro s hs hne
    simp [BeePixmapItem.create_from_data, pythonOptStrOr, hs, hne]
  · intro h
    rcases h with h | h <;>
      simp [BeePixmapItem.create_from_data, pythonOptStrOr, h]

/-- Claim C6 witness: a non-empty filename on the item wins over the
payload's. -/
theorem create_from_data_filename_amended_witness :
    (BeePixmapItem.create_from_data (BeePixmapItem.mkItem [] (some "bee.png"))
        { filename := some "other.png" }).filename = some "bee.png" :=
  (create_from_data_filename_amended _ _).1 "bee.png" rfl (by decide)

/-- Claim C10 counterexample: `create_copy` of a text item whose content
is the empty string yields a copy whose content is the literal
`"Text"`, not the original's empty string. -/
theorem create_copy_empty_text_cex :
    (({ text := "" } : BeeTextItem).create_copy).text
      ≠ ({ text := "" } : BeeTextItem).text := by
  decide

/-- Claim C10 (amended): `create_copy` yields a new item whose position,
z-order, scale, rotation, flip state and type-specific content (pixmap
bytes and filename, or plain text provided it is non-empty — an empty
text becomes `"Text"`) equal the original's, with a null `save_id`; the
original is untouched since `create_copy` is a pure function of it. -/
theorem create_copy_amended (p : BeePixmapItem) (t : BeeTextItem) :
    (p.base.flip = 1 ∨ p.base.flip = -1 →
      (p.create_copy).base.x = p.base.x
      ∧ (p.create_copy).base.y = p.base.y
      ∧ (p.create_copy).base.z = p.base.z
      ∧ (p.create_copy).base.scale = p.base.scale
      ∧ (p.create_copy).base.rotation = p.base.rotation
      ∧ (p.create_copy).base.flip = p.base.flip
      ∧ (p.create_copy).pixmap = p.pixmap
      ∧ (p.create_copy).filename = p.filename
      ∧ (p.create_copy).base.save_id = none)
    ∧ (t.base.flip = 1 ∨ t.base.flip = -1 → t.text ≠ "" →
      (t.create_copy).base.x = t.base.x
      ∧ (t.create_copy).base.y = t.base.y
      ∧ (t.create_copy).base.z = t.base.z
      ∧ (t.create_copy).base.scale = t.base.scale
      ∧ (t.create_copy).base.rotation = t.base.rotation
      ∧ (t.create_copy).base.flip = t.base.flip
      ∧ (t.create_copy).text = t.text
      ∧ (t.create_copy).base.save_id = none) := by
  constructor
  · intro hf
    rcases hf with h | h <;>
      simp [BeePixmapItem.create_copy, BeePixmapItem.mkItem,
        BeeItemMixin.do_flip, h]
  · intro hf ht
    rcases hf with h | h <;>
      simp [BeeTextItem.create_copy, BeeTextItem.mkItem,
        BeeItemMixin.do_flip, pythonStrOr, h, ht]

/-- Claim C10 witness: a flipped image item with concrete state is copied
field by field with a null save id. -/
theorem create_copy_amended_witness :
    (({ base := { save_id := some 9, flip := -1 } } : BeePixmapItem).create_copy).base.flip = -1
    ∧ (({ base := { save_id := some 9, flip := -1 } } : BeePixmapItem).create_copy).base.save_id = none := by
  have h := (create_copy_amended { base := { save_id := some 9, flip := -1 } } {}).1 (Or.inr rfl)
  exact ⟨h.2.2.2.2.2.1, h.2.2.2.2.2.2.2.2⟩

end BeeRef
